import Mathlib

/-!
Verification development for the Real-Time-Multi-Agent-Governance pipeline.

The Python services are shallowly embedded as pure Lean functions:

* `services/governance/governance_engine.py` — `governance_process_proposal`,
  `governance_loop_batch`;
* `services/agent_runtime/agents.py` — `MarketAgent.on_tick`, `RiskAgent.on_tick`;
* `services/agent_runtime/agent_manager.py` — `manager_process_entries`,
  `manager_run`;
* `services/execution/execution_engine.py` — `execution_process_entry`,
  `execution_loop_batch`;
* `services/api/main.py` — `ConnectionManager.broadcast`;
* `services/market_feed/replay_player.py` — `publish_tick`, `run_player`.

JSON payload values are modelled by `JPrim`; machine-level concerns that the
embedded logic never exercises (wall-clock pacing, uuid generation, the Redis
transport) are passed in as explicit parameters.
-/

namespace Pipeline

/-- A primitive JSON value as carried in payload / result objects
(`json.dumps` of the Python dicts).  Objects appearing in the code are
flat, so an association list of `JPrim` suffices. -/
inductive JPrim where
  | null
  | bool (b : Bool)
  | num (q : Rat)
  | str (s : String)
deriving DecidableEq, Repr

/-- A JSON object: ordered field list, as produced by `json.dumps` of a
Python dict literal. -/
abbrev JObj := List (String × JPrim)

/-- Record of the `agent.proposals` topic, schema from `services/agent_runtime/agents.py`:
`{proposal_id, agent_id, timestamp, type, payload, priority}`. -/
structure Proposal where
  proposal_id : String
  agent_id : String
  timestamp : Int
  type : String
  payload : JObj
  priority : Int
deriving DecidableEq, Repr

/-- Record of the `execution.actions` topic, schema from
`services/governance/governance_engine.py`:
`{action_id, proposal_id, timestamp, status, result}`. -/
structure Action where
  action_id : String
  proposal_id : String
  timestamp : Int
  status : String
  result : JObj
deriving DecidableEq, Repr

/-- Record appended to `audit.events` by the governance engine:
`{event, proposal}`. -/
structure GovAudit where
  event : String
  proposal : Proposal
deriving DecidableEq, Repr

/-- One `xadd` performed by the governance engine, in program order:
either an Action appended to `execution.actions` or an audit record
appended to `audit.events`. -/
inductive GovWrite where
  | execAction (a : Action) : GovWrite
  | auditEvent (e : GovAudit) : GovWrite
deriving DecidableEq, Repr

/-- Lines 29–51 of `governance_engine.py`: the per-proposal body of
`governance_loop`.  `type == "trade"` is approved with
`status = "applied"`, `result = {"executed": true, "info": "auto-approved demo"}`
and audit event `proposal_approved`; every other type is rejected with
`result = {"reason": "unsupported proposal type in demo"}` and audit event
`proposal_rejected`.  The Action is appended to `execution.actions` first,
the audit record to `audit.events` second. -/
def governance_process_proposal (p : Proposal) : List GovWrite :=
  if p.type = "trade" then
    [GovWrite.execAction
      { action_id := p.proposal_id
        proposal_id := p.proposal_id
        timestamp := p.timestamp
        status := "applied"
        result := [("executed", JPrim.bool true),
                   ("info", JPrim.str "auto-approved demo")] },
     GovWrite.auditEvent { event := "proposal_approved", proposal := p }]
  else
    [GovWrite.execAction
      { action_id := p.proposal_id
        proposal_id := p.proposal_id
        timestamp := p.timestamp
        status := "rejected"
        result := [("reason", JPrim.str "unsupported proposal type in demo")] },
     GovWrite.auditEvent { event := "proposal_rejected", proposal := p }]

/-- The Action emitted for a proposal (first write of
`governance_process_proposal`). -/
def governance_action (p : Proposal) : Action :=
  if p.type = "trade" then
    { action_id := p.proposal_id
      proposal_id := p.proposal_id
      timestamp := p.timestamp
      status := "applied"
      result := [("executed", JPrim.bool true),
                 ("info", JPrim.str "auto-approved demo")] }
  else
    { action_id := p.proposal_id
      proposal_id := p.proposal_id
      timestamp := p.timestamp
      status := "rejected"
      result := [("reason", JPrim.str "unsupported proposal type in demo")] }

/-- A sample rejected-type proposal (the `halt` proposal of the spec's
example scenario in §8). -/
def sampleHaltProposal : Proposal :=
  { proposal_id := "p-halt-1"
    agent_id := "agent.risk.1"
    timestamp := 1000
    type := "halt"
    payload := [("reason", JPrim.str "price anomaly"), ("symbol", JPrim.str "X")]
    priority := 10 }

theorem governance_process_proposal_eq (p : Proposal) :
    governance_process_proposal p =
      [GovWrite.execAction (governance_action p),
       GovWrite.auditEvent
         { event := if p.type = "trade" then "proposal_approved" else "proposal_rejected"
           proposal := p }] := by
  unfold governance_process_proposal governance_action
  by_cases h : p.type = "trade" <;> simp [h]

/-- A decoded market-tick document (dict) as the agents consume it.  The
agents read only `tick.get("price")` and `tick.get("symbol")`
(`agents.py` lines 20–21 and 44–45); `dict.get` returns `None` for a
missing key, hence the `Option` fields. -/
structure Tick where
  symbol : Option String
  price : Option Rat
deriving DecidableEq, Repr

/-- Conversion of an optional string to the JSON value `json.dumps`
produces for it (`None` becomes `null`). -/
def jsonOfOptStr : Option String → JPrim
  | none => JPrim.null
  | some s => JPrim.str s

/-- Conversion of an optional number to the JSON value `json.dumps`
produces for it (`None` becomes `null`). -/
def jsonOfOptNum : Option Rat → JPrim
  | none => JPrim.null
  | some q => JPrim.num q

namespace MarketAgent

/-- Lines 18–31 of `agents.py`, `MarketAgent.on_tick`: unconditionally
build one `trade` proposal (fixed demo size 0.001, priority 5) and
append it to `agent.proposals`.  The fresh `uuid.uuid4()` and the
wall-clock `int(time.time() * 1000)` are passed in as `fresh_uuid` and
`now_ms`; `agent_id` is the constructor argument (default
`"agent.market.1"`). -/
def on_tick (fresh_uuid : String) (now_ms : Int) (agent_id : String)
    (tick : Tick) : List Proposal :=
  [{ proposal_id := fresh_uuid
     agent_id := agent_id
     timestamp := now_ms
     type := "trade"
     payload := [("symbol", jsonOfOptStr tick.symbol),
                 ("side", JPrim.str "buy"),
                 ("size", JPrim.num (1 / 1000)),
                 ("price", jsonOfOptNum tick.price)]
     priority := 5 }]

end MarketAgent

namespace RiskAgent

/-- The Python guard `if price and price < 0:` (`agents.py` line 47):
`price` is first tested for truthiness (both `None` and `0` are falsy),
then compared against zero. -/
def halt_condition : Option Rat → Bool
  | none => false
  | some q => if q = 0 then false else decide (q < 0)

/-- Lines 42–57 of `agents.py`, `RiskAgent.on_tick`: when the guard
`price and price < 0` holds, build one `halt` proposal with priority 10
and append it to `agent.proposals`; otherwise emit nothing.  Fresh uuid
and wall-clock timestamp are passed in; `agent_id` is the constructor
argument (default `"agent.risk.1"`). -/
def on_tick (fresh_uuid : String) (now_ms : Int) (agent_id : String)
    (tick : Tick) : List Proposal :=
  if halt_condition tick.price then
    [{ proposal_id := fresh_uuid
       agent_id := agent_id
       timestamp := now_ms
       type := "halt"
       payload := [("reason", JPrim.str "price anomaly"),
                   ("symbol", jsonOfOptStr tick.symbol)]
       priority := 10 }]
  else []

end RiskAgent

/-- An entry of the `market.ticks` stream as the agent manager sees it
(`agent_manager.py` lines 25–31): either the fields map has no `data`
key, or the `data` payload fails `json.loads`, or it decodes to a tick
document. -/
inductive EntryPayload where
  | noData
  | malformed
  | tick (t : Tick)
deriving DecidableEq, Repr

/-- Outcome of one agent invocation on a tick: the proposals it emitted,
or the exception it raised.  This is the behaviour the dispatcher's
isolation requirement quantifies over. -/
abbrev AgentBehavior := Tick → Except String (List Proposal)

/-- Semantics of `await asyncio.gather(*tasks)` with the default
`return_exceptions=False` for synchronous task bodies
(`agent_manager.py` line 36): the first exception raised propagates to
the awaiter and the sibling results are discarded; only when every task
succeeds is the list of all results returned. -/
def gather_first_error : List (Except String (List Proposal)) →
    Except String (List (List Proposal))
  | [] => Except.ok []
  | Except.error e :: _ => Except.error e
  | Except.ok a :: rest =>
      match gather_first_error rest with
      | Except.ok l => Except.ok (a :: l)
      | Except.error e => Except.error e

/-- Result of processing one batch returned by `xread`: the cursor value
of `last_id` afterwards, tagged with whether an exception escaped to the
`except` handler of the poll loop (`agent_manager.py` line 38). -/
inductive ManagerResult where
  | ok (cursor : Nat)
  | err (cursor : Nat)
deriving DecidableEq, Repr

/-- Lines 24–37 of `agent_manager.py`, the per-batch body of
`start_manager`.  Entry ids are modelled as naturals (the manager starts
from cursor `0`, standing for `"$"`).  Per entry:

* no `data` field: the dispatch block is skipped and `last_id = entry_id`
  still runs, so the cursor advances;
* malformed JSON: the warning path runs `continue`, which also skips the
  `last_id = entry_id` statement — the cursor does NOT advance;
* a decoded tick: `asyncio.gather` over all agents; if it raises, the
  exception escapes both `for` loops to the outer handler, aborting the
  batch with the cursor as-is; otherwise the cursor advances. -/
def manager_process_entries (agents : List AgentBehavior) :
    Nat → List (Nat × EntryPayload) → ManagerResult
  | cursor, [] => ManagerResult.ok cursor
  | _cursor, (eid, EntryPayload.noData) :: rest =>
      manager_process_entries agents eid rest
  | cursor, (_eid, EntryPayload.malformed) :: rest =>
      manager_process_entries agents cursor rest
  | cursor, (eid, EntryPayload.tick t) :: rest =>
      match gather_first_error (agents.map fun a => a t) with
      | Except.error _ => ManagerResult.err cursor
      | Except.ok _ => manager_process_entries agents eid rest

/-- Blocking `xread` from a cursor: the entries of the log with id
strictly greater than the cursor, in log order. -/
def stream_read_from {α : Type} (log : List (Nat × α)) (cursor : Nat) :
    List (Nat × α) :=
  log.filter fun e => cursor < e.1

/-- The manager's poll loop iterated `n` times over a fixed log: each
iteration reads from the current cursor and processes the batch; both a
normal batch and an escaped exception leave the loop with the resulting
cursor (`agent_manager.py` lines 18–40). -/
def manager_run (agents : List AgentBehavior) (log : List (Nat × EntryPayload)) :
    Nat → Nat → Nat
  | 0, cursor => cursor
  | n + 1, cursor =>
      match manager_process_entries agents cursor (stream_read_from log cursor) with
      | ManagerResult.ok c => manager_run agents log n c
      | ManagerResult.err c => manager_run agents log n c

/-- An entry of the `agent.proposals` stream as the governance engine
sees it (`governance_engine.py` lines 24–28): no `data` field, a payload
that fails `json.loads`, or a decoded proposal. -/
inductive GovEntryPayload where
  | noData
  | malformed
  | prop (p : Proposal)
deriving DecidableEq, Repr

/-- Result of one governance batch: final `last_id` cursor and the
stream writes performed, tagged with whether an exception escaped to the
outer handler (`governance_engine.py` line 53). -/
inductive GovBatchResult where
  | ok (cursor : Nat) (writes : List GovWrite)
  | err (cursor : Nat) (writes : List GovWrite)
deriving DecidableEq, Repr

/-- Lines 23–52 of `governance_engine.py`, the per-batch body of
`governance_loop`.  Per entry:

* no `data` field: `continue` skips the rest of the body including
  `last_id = entry_id`, so the cursor does not advance;
* malformed JSON: `json.loads` at line 28 is not guarded per-entry, so
  the exception escapes to the outer handler — the batch aborts with the
  cursor and writes made so far;
* a decoded proposal: the two appends of
  `governance_process_proposal` run, then the cursor advances. -/
def governance_loop_batch :
    Nat → List (Nat × GovEntryPayload) → GovBatchResult
  | cursor, [] => GovBatchResult.ok cursor []
  | cursor, (_eid, GovEntryPayload.noData) :: rest =>
      governance_loop_batch cursor rest
  | cursor, (_eid, GovEntryPayload.malformed) :: _rest =>
      GovBatchResult.err cursor []
  | _cursor, (eid, GovEntryPayload.prop p) :: rest =>
      match governance_loop_batch eid rest with
      | GovBatchResult.ok c ws =>
          GovBatchResult.ok c (governance_process_proposal p ++ ws)
      | GovBatchResult.err c ws =>
          GovBatchResult.err c (governance_process_proposal p ++ ws)

/-- Record appended to `audit.events` by the execution engine:
`{event, action}` (`execution_engine.py` line 32). -/
structure ExecAudit where
  event : String
  action : Action
deriving DecidableEq, Repr

/-- One observable operation of the execution engine, in program order:
the durable application of an action's effect (the append to the local
execution log file) or an audit-stream append. -/
inductive ExecOp where
  | applyEffect (a : Action)
  | appendAudit (e : ExecAudit)
deriving DecidableEq, Repr

/-- Lines 29–32 of `execution_engine.py`, the per-entry body of
`execution_loop`: apply the action's effect (write it to the execution
log file), then append one `action_executed` audit record.  No check
against the action id precedes either step. -/
def execution_process_entry (a : Action) : List ExecOp :=
  [ExecOp.applyEffect a,
   ExecOp.appendAudit { event := "action_executed", action := a }]

/-- Lines 23–34 of `execution_loop` restricted to decoded entries: the
operations performed over a delivered batch, in delivery order.  The
entry id is carried only into `last_id`; it is never consulted before
applying the effect, so a redelivered id is processed again. -/
def execution_loop_batch : List (Nat × Action) → List ExecOp
  | [] => []
  | (_eid, a) :: rest => execution_process_entry a ++ execution_loop_batch rest

/-- The number of `action_executed` completion audit records among a
list of execution-engine operations. -/
def count_action_executed (ops : List ExecOp) : Nat :=
  ops.countP fun op =>
    match op with
    | ExecOp.appendAudit e => e.event = "action_executed"
    | ExecOp.applyEffect _ => false

namespace ConnectionManager

/-- The `for ws in list(self.active)` loop of
`ConnectionManager.broadcast` (`main.py` lines 27–31): iterate over the
snapshot, attempting `send_text` on each connection; a failure is caught
and the connection appended to `to_remove`, a success delivers the
message.  Connections are opaque handles, modelled as naturals; `send`
tells whether `send_text` succeeds on a given connection.  Returns the
connections that received the message and the accumulated `to_remove`
list. -/
def broadcast_pass (send : Nat → Bool) :
    List Nat → List Nat → List Nat × List Nat
  | [], to_remove => ([], to_remove)
  | ws :: rest, to_remove =>
      if send ws then
        let r := broadcast_pass send rest to_remove
        (ws :: r.1, r.2)
      else
        broadcast_pass send rest (to_remove ++ [ws])

/-- Outcome of one `broadcast` call: who received the message, and the
active set afterwards. -/
structure BroadcastResult where
  delivered : List Nat
  active : List Nat
deriving DecidableEq, Repr

/-- Lines 25–33 of `main.py`, `ConnectionManager.broadcast`: take the
snapshot `list(self.active)`, run the delivery pass over it, and only
after the pass apply `self.disconnect(ws)` (a `set.discard`, modelled by
`List.erase` on a duplicate-free active list) for each marked
connection. -/
def broadcast (send : Nat → Bool) (active : List Nat) : BroadcastResult :=
  let pass := broadcast_pass send active []
  { delivered := pass.1
    active := pass.2.foldl (fun acc ws => acc.erase ws) active }

end ConnectionManager

/-- One row of the replay input file as `run_player` reads it
(`replay_player.py`): `timestamp`, `symbol` and `price` are accessed
unconditionally; `size` and `side` go through `tick.get` with defaults
`0` and `"unknown"` (lines 21–22). -/
structure TickRow where
  timestamp : Int
  symbol : String
  price : Rat
  size : Option Rat
  side : Option String
deriving DecidableEq, Repr

/-- Record appended to `market.ticks` for one row, schema of
`publish_tick` (`replay_player.py` lines 15–26). -/
structure TickRecord where
  stream_id : String
  timestamp : Int
  symbol : String
  price : Rat
  size : Rat
  side : String
  source : String
deriving DecidableEq, Repr

/-- Lines 15–26 of `replay_player.py`, `publish_tick`: build the tick
record for a row (fresh `uuid.uuid4()` passed in as `fresh_uuid`,
`source` fixed to `"replay"`, defaults applied to `size` and `side`). -/
def publish_tick (fresh_uuid : String) (row : TickRow) : TickRecord :=
  { stream_id := fresh_uuid
    timestamp := row.timestamp
    symbol := row.symbol
    price := row.price
    size := row.size.getD 0
    side := row.side.getD "unknown"
    source := "replay" }

/-- An `xadd` on the tick topic with an auto-generated entry id: the
substrate assigns ids that increase strictly with each append (modelled
as one more than the current length). -/
def stream_xadd (log : List (Nat × TickRecord)) (rec : TickRecord) :
    List (Nat × TickRecord) :=
  log ++ [(log.length + 1, rec)]

/-- The publishing loop of `run_player` (lines 40–46 and 50–52 of
`replay_player.py`): both the realtime and the fixed-interval branch
append one entry per row, in row order; the branches differ only in the
`asyncio.sleep` pacing, which has no effect on the published sequence.
Fresh uuids are drawn from `uuids` indexed by append position. -/
def publish_rows (uuids : Nat → String) :
    List TickRow → List (Nat × TickRecord) → List (Nat × TickRecord)
  | [], log => log
  | row :: rest, log =>
      publish_rows uuids rest (stream_xadd log (publish_tick (uuids log.length) row))

/-- Lines 28–53 of `replay_player.py`, `run_player`: load the rows, sort
them by the `timestamp` column (`df.sort_values("timestamp")`, modelled
by an insertion sort on the timestamp order), then publish them one at a
time in sorted order, starting from an empty tick topic. -/
def run_player (uuids : Nat → String) (rows : List TickRow) :
    List (Nat × TickRecord) :=
  publish_rows uuids
    (List.insertionSort (fun a b => a.timestamp ≤ b.timestamp) rows) []

/-- Boolean strict chain: every adjacent pair of the list satisfies `f`. -/
def bool_chain {α : Type} (f : α → α → Bool) : List α → Bool
  | [] => true
  | [_] => true
  | a :: b :: rest => f a b && bool_chain f (b :: rest)

/-- Whether a governance write is an append to `execution.actions`. -/
def GovWrite.isAction : GovWrite → Bool
  | GovWrite.execAction _ => true
  | GovWrite.auditEvent _ => false

/-- Whether a governance write is an append to `audit.events`. -/
def GovWrite.isAudit : GovWrite → Bool
  | GovWrite.execAction _ => false
  | GovWrite.auditEvent _ => true

/-- A sample trade proposal as `MarketAgent` would emit it. -/
def sampleTradeProposal : Proposal :=
  { proposal_id := "p-trade-1"
    agent_id := "agent.market.1"
    timestamp := 2000
    type := "trade"
    payload := [("symbol", JPrim.str "X"), ("side", JPrim.str "buy"),
                ("size", JPrim.num (1 / 1000)), ("price", JPrim.num 100)]
    priority := 5 }

/-- The tick of the spec's example scenario:
`{symbol: "X", price: -1.0, timestamp: 1000}`. -/
def sampleTick : Tick := { symbol := some "X", price := some (-1) }

/-- C1, counterexample: on the sample `halt` proposal the Policy
Evaluator emits a rejected Action whose result is NOT
`{reason: "unsupported type"}` as the claim states (the code writes
`{"reason": "unsupported proposal type in demo"}`). -/
theorem C1_counterexample_reject_reason :
    (governance_action sampleHaltProposal).status = "rejected" ∧
    (governance_action sampleHaltProposal).result ≠
      [("reason", JPrim.str "unsupported type")] ∧
    GovWrite.execAction (governance_action sampleHaltProposal) ∈
      governance_process_proposal sampleHaltProposal := by
  decide

/-- C1, amended: the decision depends only on the proposal's `type`
field; per proposal exactly one Action and exactly one AuditEvent are
emitted; `type == "trade"` yields status `applied` with result
`{executed: true, info: "auto-approved demo"}` and audit event
`proposal_approved`; any other type yields status `rejected` with
result `{reason: "unsupported proposal type in demo"}` and audit event
`proposal_rejected`. -/
theorem C1_amended_policy (p : Proposal) :
    (governance_process_proposal p).countP GovWrite.isAction = 1 ∧
    (governance_process_proposal p).countP GovWrite.isAudit = 1 ∧
    (p.type = "trade" →
      governance_process_proposal p =
        [GovWrite.execAction
          { action_id := p.proposal_id
            proposal_id := p.proposal_id
            timestamp := p.timestamp
            status := "applied"
            result := [("executed", JPrim.bool true),
                       ("info", JPrim.str "auto-approved demo")] },
         GovWrite.auditEvent { event := "proposal_approved", proposal := p }]) ∧
    (p.type ≠ "trade" →
      governance_process_proposal p =
        [GovWrite.execAction
          { action_id := p.proposal_id
            proposal_id := p.proposal_id
            timestamp := p.timestamp
            status := "rejected"
            result := [("reason", JPrim.str "unsupported proposal type in demo")] },
         GovWrite.auditEvent { event := "proposal_rejected", proposal := p }]) := by
  by_cases h : p.type = "trade" <;>
    simp [governance_process_proposal, GovWrite.isAction, GovWrite.isAudit, h]

/-- C1, witness: the amended policy evaluated on a concrete trade
proposal and on a concrete halt proposal. -/
theorem C1_amended_policy_witness :
    governance_process_proposal sampleTradeProposal =
      [GovWrite.execAction
        { action_id := "p-trade-1"
          proposal_id := "p-trade-1"
          timestamp := 2000
          status := "applied"
          result := [("executed", JPrim.bool true),
                     ("info", JPrim.str "auto-approved demo")] },
       GovWrite.auditEvent
        { event := "proposal_approved", proposal := sampleTradeProposal }] ∧
    governance_process_proposal sampleHaltProposal =
      [GovWrite.execAction
        { action_id := "p-halt-1"
          proposal_id := "p-halt-1"
          timestamp := 1000
          status := "rejected"
          result := [("reason", JPrim.str "unsupported proposal type in demo")] },
       GovWrite.auditEvent
        { event := "proposal_rejected", proposal := sampleHaltProposal }] :=
  ⟨(C1_amended_policy sampleTradeProposal).2.2.1 rfl,
   (C1_amended_policy sampleHaltProposal).2.2.2 (by decide)⟩

/-- C5: on every tick, MarketAgent unconditionally emits exactly one
proposal, with type `trade` and priority 5. -/
theorem C5_market_agent_one_trade_proposal
    (fresh_uuid : String) (now_ms : Int) (agent_id : String) (tick : Tick) :
    MarketAgent.on_tick fresh_uuid now_ms agent_id tick =
      [{ proposal_id := fresh_uuid
         agent_id := agent_id
         timestamp := now_ms
         type := "trade"
         payload := [("symbol", jsonOfOptStr tick.symbol),
                     ("side", JPrim.str "buy"),
                     ("size", JPrim.num (1 / 1000)),
                     ("price", jsonOfOptNum tick.price)]
         priority := 5 }] := rfl

/-- C4: on a tick whose price decodes to `q`, RiskAgent emits exactly
one `halt` proposal with priority 10 when `q < 0`, and emits nothing
when `q >= 0`. -/
theorem C4_risk_agent_halt_iff_negative_price
    (fresh_uuid : String) (now_ms : Int) (agent_id : String) (tick : Tick)
    (q : Rat) (h : tick.price = some q) :
    RiskAgent.on_tick fresh_uuid now_ms agent_id tick =
      if q < 0 then
        [{ proposal_id := fresh_uuid
           agent_id := agent_id
           timestamp := now_ms
           type := "halt"
           payload := [("reason", JPrim.str "price anomaly"),
                       ("symbol", jsonOfOptStr tick.symbol)]
           priority := 10 }]
      else [] := by
  by_cases hq : q = 0
  · subst hq
    simp [RiskAgent.on_tick, RiskAgent.halt_condition, h]
  · by_cases hlt : q < 0 <;>
      simp [RiskAgent.on_tick, RiskAgent.halt_condition, h, hq, hlt]

/-- C4, witness: the spec's example tick `{symbol: "X", price: -1.0}`
produces exactly the one halt proposal. -/
theorem C4_risk_agent_witness :
    RiskAgent.on_tick "u1" 1000 "agent.risk.1" sampleTick =
      [{ proposal_id := "u1"
         agent_id := "agent.risk.1"
         timestamp := 1000
         type := "halt"
         payload := [("reason", JPrim.str "price anomaly"),
                     ("symbol", JPrim.str "X")]
         priority := 10 }] := by
  have h := C4_risk_agent_halt_iff_negative_price "u1" 1000 "agent.risk.1"
    sampleTick (-1) rfl
  simpa using h

/-- C9: per proposal, the governance engine appends the Action to
`execution.actions` strictly before the audit record describing that
proposal goes to `audit.events`; per action entry, the execution engine
applies the effect strictly before appending the `action_executed`
completion audit describing that action. -/
theorem C9_write_ordering (p : Proposal) (a : Action) :
    (∃ act ev,
      governance_process_proposal p =
        [GovWrite.execAction act, GovWrite.auditEvent ev] ∧
      ev.proposal = p ∧ act.proposal_id = p.proposal_id) ∧
    execution_process_entry a =
      [ExecOp.applyEffect a,
       ExecOp.appendAudit { event := "action_executed", action := a }] := by
  refine ⟨⟨governance_action p,
    { event := if p.type = "trade" then "proposal_approved" else "proposal_rejected"
      proposal := p }, governance_process_proposal_eq p, rfl, ?_⟩, rfl⟩
  unfold governance_action
  by_cases h : p.type = "trade" <;> simp [h]

/-- C10: every Action the governance engine appends for a proposal has
`action_id` equal to the proposal's `proposal_id` (no fresh id is
generated) and `timestamp` copied from the proposal, in the approved
and in the rejected branch alike. -/
theorem C10_action_id_and_timestamp_copied (p : Proposal) (a : Action)
    (h : GovWrite.execAction a ∈ governance_process_proposal p) :
    a.action_id = p.proposal_id ∧ a.timestamp = p.timestamp := by
  unfold governance_process_proposal at h
  by_cases ht : p.type = "trade" <;>
    simp [ht] at h <;> subst h <;> exact ⟨rfl, rfl⟩

/-- C10, witness: evaluated on the sample halt proposal and its emitted
(rejected) Action. -/
theorem C10_witness :
    (governance_action sampleHaltProposal).action_id =
      sampleHaltProposal.proposal_id ∧
    (governance_action sampleHaltProposal).timestamp =
      sampleHaltProposal.timestamp :=
  C10_action_id_and_timestamp_copied sampleHaltProposal
    (governance_action sampleHaltProposal) (by decide)

/-- An agent whose invocation succeeds without emitting proposals. -/
def benign_agent : AgentBehavior := fun _ => Except.ok []

/-- An agent whose decision logic raises on every tick. -/
def failing_agent : AgentBehavior := fun _ => Except.error "boom"

/-- C2: one registered agent failing on a tick makes the
`asyncio.gather` call raise, the exception escapes to the poll-loop
handler with the cursor unchanged (the sibling's outcome is discarded
rather than captured), and — since the cursor never advances past the
tick — every further iteration of the dispatch loop re-reads the same
entry and aborts again: the loop stalls on that tick indefinitely. -/
theorem C2_agent_failure_aborts_batch :
    manager_process_entries [benign_agent, failing_agent] 0
      [(1, EntryPayload.tick sampleTick)] = ManagerResult.err 0 ∧
    ∀ n, manager_run [benign_agent, failing_agent]
      [(1, EntryPayload.tick sampleTick)] n 0 = 0 := by
  refine ⟨rfl, ?_⟩
  intro n
  induction n with
  | zero => rfl
  | succ n ih => exact ih

/-- C3: a malformed entry is not handled as the claim states.  In the
agent dispatcher the `continue` after the decode warning skips the
cursor-advance statement, so the batch ends with the cursor still
before the malformed entry and every later poll re-reads it (the loop
never moves past it).  In the Policy Evaluator the decode is not
guarded per entry at all: the exception aborts the whole batch with the
cursor unchanged and no writes, and the next read redelivers the same
malformed entry. -/
theorem C3_malformed_entry_not_skipped :
    manager_process_entries [benign_agent] 0 [(1, EntryPayload.malformed)] =
      ManagerResult.ok 0 ∧
    (∀ n, manager_run [benign_agent] [(1, EntryPayload.malformed)] n 0 = 0) ∧
    governance_loop_batch 0 [(1, GovEntryPayload.malformed)] =
      GovBatchResult.err 0 [] ∧
    stream_read_from [(1, GovEntryPayload.malformed)] 0 =
      [(1, GovEntryPayload.malformed)] := by
  refine ⟨rfl, ?_, rfl, rfl⟩
  intro n
  induction n with
  | zero => rfl
  | succ n ih => exact ih

/-- A sample approved Action as the governance engine would emit it. -/
def sampleAction : Action :=
  { action_id := "p-trade-1"
    proposal_id := "p-trade-1"
    timestamp := 2000
    status := "applied"
    result := [("executed", JPrim.bool true),
               ("info", JPrim.str "auto-approved demo")] }

/-- C7, counterexample: redelivering the same Action entry id to the
execution engine produces a second `action_executed` completion audit —
processing the entry twice does not yield the same audit output as
processing it once. -/
theorem C7_counterexample_redelivery_duplicates_audit :
    count_action_executed
      (execution_loop_batch [(1, sampleAction), (1, sampleAction)]) = 2 ∧
    count_action_executed (execution_loop_batch [(1, sampleAction)]) = 1 ∧
    execution_loop_batch [(1, sampleAction), (1, sampleAction)] ≠
      execution_loop_batch [(1, sampleAction)] := by
  decide

/-- C7, amended: the execution engine performs no idempotency check, so
every delivered Action entry — redeliveries included — produces exactly
one `action_executed` completion audit: over any delivered batch the
number of completion audits equals the number of entries. -/
theorem C7_amended_one_audit_per_delivery (entries : List (Nat × Action)) :
    count_action_executed (execution_loop_batch entries) = entries.length := by
  induction entries with
  | nil => rfl
  | cons e rest ih =>
    simp [execution_loop_batch, execution_process_entry, count_action_executed,
      List.countP_append, List.countP_cons] at ih ⊢
    omega

/-- The delivery pass over a snapshot delivers to exactly the
connections whose send succeeds and marks exactly the failing ones for
removal, in snapshot order. -/
theorem broadcast_pass_eq (send : Nat → Bool) (l acc : List Nat) :
    ConnectionManager.broadcast_pass send l acc =
      (l.filter send, acc ++ l.filter fun ws => !send ws) := by
  induction l generalizing acc with
  | nil => simp [ConnectionManager.broadcast_pass]
  | cons ws rest ih =>
    by_cases h : send ws <;>
      simp [ConnectionManager.broadcast_pass, h, ih]

/-- Applying `List.erase` for each element of a removal list to a
duplicate-free list keeps exactly the elements not in the removal
list. -/
theorem foldl_erase_eq_filter (rs : List Nat) :
    ∀ active : List Nat, active.Nodup →
      rs.foldl (fun acc ws => acc.erase ws) active =
        active.filter fun a => !rs.contains a := by
  induction rs with
  | nil => intro active _; simp
  | cons r rs ih =>
    intro active h
    rw [List.foldl_cons, ih _ (h.erase r), List.Nodup.erase_eq_filter h r,
      List.filter_filter]
    refine List.filter_congr ?_
    intro a _
    simp only [List.contains_cons, Bool.not_or, Bool.and_comm, bne,
      beq_eq_decide]

/-- C6: `broadcast` attempts delivery over the snapshot of the active
set taken before iterating; every registered connection whose send
succeeds receives the message even when other sends fail, no send
failure escapes the call, and exactly the failing connections are
removed from the active set — after the pass. -/
theorem C6_broadcast_snapshot_isolation (send : Nat → Bool)
    (active : List Nat) (h : active.Nodup) :
    (ConnectionManager.broadcast send active).delivered =
      active.filter send ∧
    (ConnectionManager.broadcast send active).active =
      active.filter send := by
  unfold ConnectionManager.broadcast
  rw [broadcast_pass_eq]
  refine ⟨rfl, ?_⟩
  simp only [List.nil_append]
  rw [foldl_erase_eq_filter _ active h]
  refine List.filter_congr ?_
  intro a ha
  by_cases hs : send a <;> simp [hs, List.mem_filter, ha]

/-- C6, witness: the spec's three-connection scenario — connection 2's
send fails, connections 1 and 3 still receive the envelope, and only
connection 2 is dropped from the active set. -/
theorem C6_broadcast_witness :
    (ConnectionManager.broadcast (fun ws => ws ≠ 2) [1, 2, 3]).delivered =
      [1, 3] ∧
    (ConnectionManager.broadcast (fun ws => ws ≠ 2) [1, 2, 3]).active =
      [1, 3] := by
  have h := C6_broadcast_snapshot_isolation (fun ws => ws ≠ 2) [1, 2, 3]
    (by decide)
  simpa using h

/-- The entry ids produced by the publishing loop continue the log with
consecutive ids starting one past the current length. -/
theorem publish_rows_map_fst (uuids : Nat → String) (rows : List TickRow) :
    ∀ log : List (Nat × TickRecord),
      (publish_rows uuids rows log).map Prod.fst =
        log.map Prod.fst ++ List.range' (log.length + 1) rows.length := by
  induction rows with
  | nil => intro log; simp [publish_rows]
  | cons row rest ih =>
    intro log
    rw [publish_rows, ih]
    simp [stream_xadd, List.range'_succ, Nat.add_comm, Nat.add_assoc]

/-- The record timestamps produced by the publishing loop are the row
timestamps, in publish order. -/
theorem publish_rows_map_timestamp (uuids : Nat → String)
    (rows : List TickRow) :
    ∀ log : List (Nat × TickRecord),
      (publish_rows uuids rows log).map (fun e => e.2.timestamp) =
        log.map (fun e => e.2.timestamp) ++ rows.map TickRow.timestamp := by
  induction rows with
  | nil => intro log; simp [publish_rows]
  | cons row rest ih =>
    intro log
    rw [publish_rows, ih]
    simp [stream_xadd, publish_tick]

/-- A block of consecutive naturals is a strictly increasing chain. -/
theorem bool_chain_lt_range' (n : Nat) :
    ∀ s : Nat, bool_chain (fun a b : Nat => decide (a < b))
      (List.range' s n) = true := by
  induction n with
  | zero => intro s; rfl
  | succ m ih =>
    intro s
    cases m with
    | zero => rfl
    | succ k =>
      rw [List.range'_succ]
      have h := ih (s + 1)
      rw [List.range'_succ] at h
      simpa [bool_chain, Nat.lt_succ_self] using h

/-- Pairwise chains restrict to adjacent-pair boolean chains. -/
theorem bool_chain_of_pairwise {α : Type} (f : α → α → Bool) (l : List α)
    (h : l.Pairwise fun a b => f a b = true) : bool_chain f l = true := by
  induction l with
  | nil => rfl
  | cons a rest ih =>
    cases rest with
    | nil => rfl
    | cons b rest2 =>
      rcases List.pairwise_cons.mp h with ⟨hab, htail⟩
      simp [bool_chain, hab b (by simp), ih htail]

/-- C8: replaying an input file of rows with strictly increasing
timestamps publishes exactly one tick-topic entry per row, with strictly
increasing entry ids and non-decreasing `timestamp` fields. -/
theorem C8_replay_ordering (uuids : Nat → String) (rows : List TickRow)
    (h : bool_chain (fun a b : TickRow =>
      decide (a.timestamp < b.timestamp)) rows = true) :
    (run_player uuids rows).length = rows.length ∧
    bool_chain (fun a b : Nat => decide (a < b))
      ((run_player uuids rows).map Prod.fst) = true ∧
    bool_chain (fun a b : Int => decide (a ≤ b))
      ((run_player uuids rows).map (fun e => e.2.timestamp)) = true := by
  unfold run_player
  set sorted_rows :=
    List.insertionSort (fun a b : TickRow => a.timestamp ≤ b.timestamp) rows
    with hsr
  have hlen : sorted_rows.length = rows.length :=
    (List.perm_insertionSort _ rows).length_eq
  refine ⟨?_, ?_, ?_⟩
  · have hmap := congrArg List.length (publish_rows_map_fst uuids sorted_rows [])
    simpa [hlen] using hmap
  · rw [publish_rows_map_fst uuids sorted_rows []]
    simpa using bool_chain_lt_range' sorted_rows.length 1
  · rw [publish_rows_map_timestamp uuids sorted_rows []]
    simp only [List.map_nil, List.nil_append]
    haveI : IsTotal TickRow (fun a b => a.timestamp ≤ b.timestamp) :=
      ⟨fun a b => Int.le_total a.timestamp b.timestamp⟩
    haveI : IsTrans TickRow (fun a b => a.timestamp ≤ b.timestamp) :=
      ⟨fun _ _ _ hab hbc => Int.le_trans hab hbc⟩
    have hs : List.Sorted (fun a b : TickRow => a.timestamp ≤ b.timestamp)
        sorted_rows := List.sorted_insertionSort _ rows
    refine bool_chain_of_pairwise _ _ ?_
    have hp : (sorted_rows.map TickRow.timestamp).Pairwise (· ≤ ·) :=
      (List.pairwise_map).mpr hs
    exact hp.imp fun hab => decide_eq_true hab

/-- A three-row replay input with strictly increasing timestamps. -/
def sampleRows : List TickRow :=
  [{ timestamp := 10, symbol := "X", price := 1, size := none, side := none },
   { timestamp := 20, symbol := "X", price := 2, size := some 1, side := some "buy" },
   { timestamp := 30, symbol := "X", price := 3, size := none, side := none }]

/-- C8, witness: the three-row input satisfies the strictly-increasing
hypothesis and replays to three entries in order. -/
theorem C8_replay_witness :
    bool_chain (fun a b : TickRow => decide (a.timestamp < b.timestamp))
      sampleRows = true ∧
    ((run_player (fun _ => "u") sampleRows).length = 3 ∧
     bool_chain (fun a b : Nat => decide (a < b))
       ((run_player (fun _ => "u") sampleRows).map Prod.fst) = true ∧
     bool_chain (fun a b : Int => decide (a ≤ b))
       ((run_player (fun _ => "u") sampleRows).map
         (fun e => e.2.timestamp)) = true) :=
  ⟨by decide, C8_replay_ordering (fun _ => "u") sampleRows (by decide)⟩

end Pipeline
